import Mathlib

/-!
Shallow embedding of `setup_vm.py`, a sequential VM-provisioning script.

The script only constructs external side effects (subprocess invocations,
file moves and deletions) in a hardcoded order, gated by three boolean
command-line flags.  We model each side effect as an `Effect` value, each
helper function of the script as a function producing the list of effects it
issues, and `main` as `mainRun`, which additionally threads an environment
`Env` assigning an exit status to every subprocess invocation (the script
receives these statuses from `subprocess.run` and discards them, which the
embedding makes explicit by pairing each effect with the status the
environment returns).
-/

/-- One externally visible side effect of the script:
a subprocess invocation (`subprocess.run(args, cwd=...)`),
a file move (`shutil.move`), a recursive directory deletion
(`shutil.rmtree`) or a file deletion (`os.remove`). -/
inductive Effect where
  | run (args : List String) (cwd : Option String)
  | move (origin destination : String)
  | rmtree (directory : String)
  | removeFile (file : String)
deriving DecidableEq, Repr

/-- The environment: for each subprocess invocation (argument vector and
optional working directory), the exit status the invoked process returns. -/
def Env : Type := List String → Option String → Int

/-- The Python argument type `str | tuple[str, ...]` taken by the command
helpers of the script. -/
inductive StrOrTuple where
  | str (s : String)
  | tup (elems : List String)
deriving DecidableEq, Repr

/-- Python's `sep.join(xs)` on a list of strings. -/
def strJoin (sep : String) : List String → String
  | [] => ""
  | [x] => x
  | x :: xs => x ++ sep ++ strJoin sep xs

/-- `_preprocess_cmd_and_print` (setup_vm.py lines 23-32): a bare string
becomes its one-element tuple and is printed verbatim; a tuple is kept and
printed space-joined. -/
def _preprocess_cmd_and_print : StrOrTuple → List String × String
  | .str cmd => ([cmd], cmd)
  | .tup cmd => (cmd, strJoin " " cmd)

/-- `_sudo_apt_install` (lines 35-38): runs
`('sudo', 'apt', 'install', *cmd, '-y')`. -/
def _sudo_apt_install (env : Env) (cmd : StrOrTuple) : List (Effect × Int) :=
  let pc := _preprocess_cmd_and_print cmd
  let args := "sudo" :: "apt" :: "install" :: (pc.1 ++ ["-y"])
  [(.run args none, env args none)]

/-- The banner `_sudo_apt_install` prints (line 37):
`sudo apt install {print_cmd}`. -/
def _sudo_apt_install_banner (cmd : StrOrTuple) : String :=
  "sudo apt install " ++ (_preprocess_cmd_and_print cmd).2

/-- `_sudo_bash_cmd` (lines 41-43): runs `('bash', cmd)`. -/
def _sudo_bash_cmd (env : Env) (cmd : String) : List (Effect × Int) :=
  [(.run ["bash", cmd] none, env ["bash", cmd] none)]

/-- The `Repo` named tuple (lines 46-49): owner, repo, optional destination
(defaulting to `None`). -/
structure Repo where
  owner : String
  repo : String
  destination : Option String := none
deriving DecidableEq, Repr

/-- `Repo.__str__` (lines 51-52): `f'{self.owner}/{self.repo}'`. -/
def Repo.str (r : Repo) : String := r.owner ++ "/" ++ r.repo

/-- Python truthiness of a `str | None` value: `None` and the empty string
are falsy, every other string is truthy.  `Repo.get_clone_cmd` and
`Repo._get_print_line` branch on `if self.destination:`, which is exactly
this test. -/
def optTruthy : Option String → Bool
  | none => false
  | some s => s ≠ ""

/-- `Repo.get_clone_cmd` (lines 54-58): with a truthy destination the
four-element command ending in the destination, otherwise the three-element
command. -/
def Repo.get_clone_cmd (r : Repo) : List String :=
  if optTruthy r.destination then
    ["git", "clone", "git@github.com:" ++ r.str, r.destination.getD ""]
  else
    ["git", "clone", "git@github.com:" ++ r.str]

/-- `Repo._get_print_line` (lines 60-66): the log line, mentioning the
destination exactly when it is truthy. -/
def Repo.get_print_line (r : Repo) : String :=
  if optTruthy r.destination then
    "cloning repo " ++ r.str ++ " to " ++ r.destination.getD ""
  else
    "cloning repo " ++ r.str

/-- `_clone_github_repo` (lines 69-71): runs the repo's clone command. -/
def _clone_github_repo (env : Env) (repo : Repo) : List (Effect × Int) :=
  [(.run repo.get_clone_cmd none, env repo.get_clone_cmd none)]

/-- `_move_file` (lines 74-76): `shutil.move(origin, destination)`.
Not a subprocess, hence no exit status: paired with `0`. -/
def _move_file (origin destination : String) : List (Effect × Int) :=
  [(.move origin destination, 0)]

/-- `_delete_directory` (lines 79-81): `shutil.rmtree(directory)`. -/
def _delete_directory (directory : String) : List (Effect × Int) :=
  [(.rmtree directory, 0)]

/-- `_delete_file` (lines 84-86): `os.remove(file)`. -/
def _delete_file (file : String) : List (Effect × Int) :=
  [(.removeFile file, 0)]

/-- `_run_python` (lines 89-93): runs `('python3', *cmd)` in `cwd`. -/
def _run_python (env : Env) (cmd : StrOrTuple) (cwd : Option String := none) :
    List (Effect × Int) :=
  let pc := _preprocess_cmd_and_print cmd
  [(.run ("python3" :: pc.1) cwd, env ("python3" :: pc.1) cwd)]

/-- `_execute_cmd` (lines 96-99): runs `cmd` in `cwd`. -/
def _execute_cmd (env : Env) (cmd : StrOrTuple) (cwd : Option String := none) :
    List (Effect × Int) :=
  let pc := _preprocess_cmd_and_print cmd
  [(.run pc.1 cwd, env pc.1 cwd)]

/-- The three boolean command-line flags parsed by `main`
(lines 103-111). -/
structure Args where
  install_guest_edition : Bool
  testing : Bool
  clean_up : Bool
deriving DecidableEq, Repr

/-- `USER_HOME` (line 14): `f'/home/{USER_NAME}'`, parameterised by the
user name the script reads from `pwd`. -/
def USER_HOME (userName : String) : String := "/home/" ++ userName

/-- The `for python_version in python_versions` loop (lines 247-248):
one `_sudo_apt_install(f'python{python_version}')` per entry, in order. -/
def python_version_installs (env : Env) : List String → List (Effect × Int)
  | [] => []
  | v :: rest =>
      _sudo_apt_install env (.str ("python" ++ v)) ++
      python_version_installs env rest

/-- `main` (lines 102-254), as the ordered list of side effects it issues,
each paired with the exit status the environment assigns to it (the script
discards those statuses).  Parameterised by the parsed flags, the user name
and the version list loaded from `python_versions.yaml`. -/
def mainRun (env : Env) (args : Args) (userName : String)
    (python_versions : List String) : List (Effect × Int) :=
  let home := USER_HOME userName
  (if args.clean_up then
    _delete_file (home ++ "/.vimrc_cl_install") ++
    _delete_file (home ++ "/.vimrc") ++
    _delete_directory (home ++ "/opt") ++
    _delete_file "/tmp/virtualenv.pyz" ++
    _execute_cmd env (.tup ["sudo", "rm", "/bin/virtualenv"]) ++
    _execute_cmd env (.tup ["sudo", "rm", "-rf", home ++ "/.vim"])
  else []) ++
  -- update apt
  _execute_cmd env (.tup ["sudo", "apt", "upgrade", "-y"]) ++
  _execute_cmd env (.tup ["sudo", "apt", "update", "-y"]) ++
  -- setup git
  _execute_cmd env (.tup ["git", "config", "--global", "user.name", "\"SiQube\""]) ++
  _execute_cmd env
    (.tup ["git", "config", "--global", "user.email", "\"reich.davidr@gmail.com\""]) ++
  -- get vim
  _sudo_apt_install env (.str "vim") ++
  _clone_github_repo env ⟨"siqube", "scratch", none⟩ ++
  _move_file "scratch/.vimrc_cl_install" home ++
  -- setup youcompleteme
  _execute_cmd env (.tup ["mkdir", "-p", "/etc/apt/keyrings"]) ++
  _sudo_apt_install env (.str "cmake") ++
  _sudo_apt_install env (.str "mono-complete") ++
  _sudo_apt_install env (.str "golang") ++
  _sudo_apt_install env (.str "nodejs") ++
  _sudo_apt_install env (.str "openjdk-17-jdk") ++
  _sudo_apt_install env (.str "openjdk-17-jre") ++
  _sudo_apt_install env (.str "npm") ++
  _execute_cmd env (.tup ["sudo", "mkdir", "-p", home ++ "/.vim/bundle"]) ++
  _execute_cmd env (.tup ["sudo", "chmod", "777", home ++ "/.vim"]) ++
  _execute_cmd env (.tup ["sudo", "chmod", "777", home ++ "/.vim/bundle"]) ++
  _clone_github_repo env
    ⟨"ycm-core", "YouCompleteMe", some (home ++ "/.vim/bundle/YouCompleteMe")⟩ ++
  _execute_cmd env (.tup ["git", "submodule", "update", "--init", "--recursive"])
    (some (home ++ "/.vim/bundle/YouCompleteMe")) ++
  _sudo_apt_install env (.str "python3-dev") ++
  _run_python env (.tup ["install.py", "--all"])
    (some (home ++ "/.vim/bundle/YouCompleteMe")) ++
  _clone_github_repo env
    ⟨"VundleVim", "Vundle.vim", some (home ++ "/.vim/bundle/Vundle.vim")⟩ ++
  _execute_cmd env
    (.tup ["vim", "-u", home ++ "/.vimrc_cl_install", "+PluginInstall", "+qall"]) ++
  _move_file "scratch/.vimrc" home ++
  _execute_cmd env (.tup ["vim", home ++ "/.vimrc", "+PluginInstall", "+qall"]) ++
  _delete_directory "scratch" ++
  (if args.testing then
    _execute_cmd env (.tup ["sudo", "rm", "-rf", home ++ "/.vim"]) ++
    _delete_file (home ++ "/.vimrc")
  else []) ++
  -- basic apt packages
  _sudo_apt_install env (.str "perl") ++
  _sudo_apt_install env (.str "make") ++
  _sudo_apt_install env (.str "gcc") ++
  _sudo_apt_install env (.str "bzip2") ++
  _sudo_apt_install env (.str "curl") ++
  _sudo_apt_install env (.str "build-essential") ++
  -- setup virtualenv
  _execute_cmd env
    (.tup ["curl", "--location", "--output", "/tmp/virtualenv.pyz",
           "https://bootstrap.pypa.io/virtualenv.pyz"]) ++
  _run_python env (.tup ["/tmp/virtualenv.pyz", home ++ "/opt/venv"]) ++
  _execute_cmd env (.tup [home ++ "/opt/venv/bin/pip", "install", "virtualenv"]) ++
  _execute_cmd env
    (.tup ["sudo", "ln", "-s", home ++ "/opt/venv/bin/virtualenv", "/bin/virtualenv"]) ++
  (if args.testing then
    _delete_directory (home ++ "/opt") ++
    _delete_file "/tmp/virtualenv.pyz" ++
    _execute_cmd env (.tup ["sudo", "rm", "/bin/virtualenv"])
  else []) ++
  -- install python versions
  _sudo_apt_install env (.str "software-properties-common") ++
  _execute_cmd env (.tup ["sudo", "add-apt-repository", "ppa:deadsnakes/ppa", "-y"]) ++
  python_version_installs env python_versions ++
  (if args.install_guest_edition then
    _sudo_bash_cmd env ("/media/" ++ userName ++ "/VBox_GAs_7.0.12/autorun.sh")
  else [])

/-- The command plan of `main`: the ordered list of side effects it
constructs.  By construction of the script these do not depend on the exit
statuses, so the plan is read off with the all-zero environment. -/
def mainPlan (args : Args) (userName : String)
    (python_versions : List String) : List Effect :=
  (mainRun (fun _ _ => 0) args userName python_versions).map Prod.fst

/-! ### Expected command blocks, written from the specification's step list -/

/-- Expected block (1) of the spec's step list: cleanup of prior install
artifacts, enabled by the clean-up flag. -/
def spec_cleanup_block (u : String) : List Effect :=
  [.removeFile ("/home/" ++ u ++ "/.vimrc_cl_install"),
   .removeFile ("/home/" ++ u ++ "/.vimrc"),
   .rmtree ("/home/" ++ u ++ "/opt"),
   .removeFile "/tmp/virtualenv.pyz",
   .run ["sudo", "rm", "/bin/virtualenv"] none,
   .run ["sudo", "rm", "-rf", "/home/" ++ u ++ "/.vim"] none]

/-- Expected block (2): the apt system update/upgrade pair. -/
def spec_apt_update_block : List Effect :=
  [.run ["sudo", "apt", "upgrade", "-y"] none,
   .run ["sudo", "apt", "update", "-y"] none]

/-- Expected block (3): global git identity configuration. -/
def spec_git_config_block : List Effect :=
  [.run ["git", "config", "--global", "user.name", "\"SiQube\""] none,
   .run ["git", "config", "--global", "user.email", "\"reich.davidr@gmail.com\""] none]

/-- Expected block (4), unconditional part: the vim plugin-manager setup
(editor install, scratch clone, dotfile move, YouCompleteMe toolchain and
build, Vundle clone, batch-mode plugin install, scratch teardown). -/
def spec_vim_core (u : String) : List Effect :=
  [.run ["sudo", "apt", "install", "vim", "-y"] none,
   .run ["git", "clone", "git@github.com:siqube/scratch"] none,
   .move "scratch/.vimrc_cl_install" ("/home/" ++ u),
   .run ["mkdir", "-p", "/etc/apt/keyrings"] none,
   .run ["sudo", "apt", "install", "cmake", "-y"] none,
   .run ["sudo", "apt", "install", "mono-complete", "-y"] none,
   .run ["sudo", "apt", "install", "golang", "-y"] none,
   .run ["sudo", "apt", "install", "nodejs", "-y"] none,
   .run ["sudo", "apt", "install", "openjdk-17-jdk", "-y"] none,
   .run ["sudo", "apt", "install", "openjdk-17-jre", "-y"] none,
   .run ["sudo", "apt", "install", "npm", "-y"] none,
   .run ["sudo", "mkdir", "-p", "/home/" ++ u ++ "/.vim/bundle"] none,
   .run ["sudo", "chmod", "777", "/home/" ++ u ++ "/.vim"] none,
   .run ["sudo", "chmod", "777", "/home/" ++ u ++ "/.vim/bundle"] none,
   .run ["git", "clone", "git@github.com:ycm-core/YouCompleteMe",
         "/home/" ++ u ++ "/.vim/bundle/YouCompleteMe"] none,
   .run ["git", "submodule", "update", "--init", "--recursive"]
     (some ("/home/" ++ u ++ "/.vim/bundle/YouCompleteMe")),
   .run ["sudo", "apt", "install", "python3-dev", "-y"] none,
   .run ["python3", "install.py", "--all"]
     (some ("/home/" ++ u ++ "/.vim/bundle/YouCompleteMe")),
   .run ["git", "clone", "git@github.com:VundleVim/Vundle.vim",
         "/home/" ++ u ++ "/.vim/bundle/Vundle.vim"] none,
   .run ["vim", "-u", "/home/" ++ u ++ "/.vimrc_cl_install",
         "+PluginInstall", "+qall"] none,
   .move "scratch/.vimrc" ("/home/" ++ u),
   .run ["vim", "/home/" ++ u ++ "/.vimrc", "+PluginInstall", "+qall"] none,
   .rmtree "scratch"]

/-- Expected block (4), testing-gated part: removal of the vim artifacts. -/
def spec_vim_removal (u : String) : List Effect :=
  [.run ["sudo", "rm", "-rf", "/home/" ++ u ++ "/.vim"] none,
   .removeFile ("/home/" ++ u ++ "/.vimrc")]

/-- Expected block (4) in full: vim setup, then its testing teardown. -/
def spec_vim_block (testing : Bool) (u : String) : List Effect :=
  spec_vim_core u ++ (if testing then spec_vim_removal u else [])

/-- Expected block (5): the baseline build-toolchain package installs. -/
def spec_toolchain_block : List Effect :=
  [.run ["sudo", "apt", "install", "perl", "-y"] none,
   .run ["sudo", "apt", "install", "make", "-y"] none,
   .run ["sudo", "apt", "install", "gcc", "-y"] none,
   .run ["sudo", "apt", "install", "bzip2", "-y"] none,
   .run ["sudo", "apt", "install", "curl", "-y"] none,
   .run ["sudo", "apt", "install", "build-essential", "-y"] none]

/-- Expected block (6), unconditional part: the virtualenv bootstrap. -/
def spec_venv_core (u : String) : List Effect :=
  [.run ["curl", "--location", "--output", "/tmp/virtualenv.pyz",
         "https://bootstrap.pypa.io/virtualenv.pyz"] none,
   .run ["python3", "/tmp/virtualenv.pyz", "/home/" ++ u ++ "/opt/venv"] none,
   .run ["/home/" ++ u ++ "/opt/venv/bin/pip", "install", "virtualenv"] none,
   .run ["sudo", "ln", "-s", "/home/" ++ u ++ "/opt/venv/bin/virtualenv",
         "/bin/virtualenv"] none]

/-- Expected block (6), testing-gated part: removal of the virtualenv
artifacts. -/
def spec_venv_removal (u : String) : List Effect :=
  [.rmtree ("/home/" ++ u ++ "/opt"),
   .removeFile "/tmp/virtualenv.pyz",
   .run ["sudo", "rm", "/bin/virtualenv"] none]

/-- Expected block (6) in full: virtualenv bootstrap, then its testing
teardown. -/
def spec_virtualenv_block (testing : Bool) (u : String) : List Effect :=
  spec_venv_core u ++ (if testing then spec_venv_removal u else [])

/-- Expected block (7): the interpreter installs driven by the YAML list
(the deadsnakes prerequisites, then one install per entry in file order). -/
def spec_interpreter_block (versions : List String) : List Effect :=
  .run ["sudo", "apt", "install", "software-properties-common", "-y"] none ::
  .run ["sudo", "add-apt-repository", "ppa:deadsnakes/ppa", "-y"] none ::
  versions.map (fun v => .run ["sudo", "apt", "install", "python" ++ v, "-y"] none)

/-- Expected block (8): the guest-additions script invocation, enabled by
the install-guest-edition flag. -/
def spec_guest_block (u : String) : List Effect :=
  [.run ["bash", "/media/" ++ u ++ "/VBox_GAs_7.0.12/autorun.sh"] none]

/-! ### Helper lemmas -/

theorem home_append_ne_empty (u s : String) : ("/home/" ++ u) ++ s ≠ "" := by
  intro hc
  have hd := congrArg String.data hc
  simp [String.data_append] at hd

@[simp] theorem optTruthy_none : optTruthy none = false := rfl

@[simp] theorem optTruthy_home (u s : String) :
    optTruthy (some (("/home/" ++ u) ++ s)) = true := by
  simp only [optTruthy, ne_eq, decide_not, Bool.not_eq_true']
  simp [home_append_ne_empty u s]

@[simp] theorem url_scratch :
    "git@github.com:" ++ (("siqube" ++ "/") ++ "scratch") =
      "git@github.com:siqube/scratch" := rfl

@[simp] theorem url_ycm :
    "git@github.com:" ++ (("ycm-core" ++ "/") ++ "YouCompleteMe") =
      "git@github.com:ycm-core/YouCompleteMe" := rfl

@[simp] theorem url_vundle :
    "git@github.com:" ++ (("VundleVim" ++ "/") ++ "Vundle.vim") =
      "git@github.com:VundleVim/Vundle.vim" := rfl

theorem python_version_installs_map_fst (env : Env) (vs : List String) :
    (python_version_installs env vs).map Prod.fst =
      vs.map (fun v => Effect.run ["sudo", "apt", "install", "python" ++ v, "-y"] none) := by
  induction vs with
  | nil => rfl
  | cons v rest ih =>
      simp [python_version_installs, _sudo_apt_install,
            _preprocess_cmd_and_print, ih]

/-- The central decomposition: for every environment of exit statuses, the
commands `main` constructs are exactly the spec's expected blocks in order,
with each flag-gated block present exactly when its flag is set. -/
theorem mainRun_decomp (env : Env) (a : Args) (u : String) (vs : List String) :
    (mainRun env a u vs).map Prod.fst =
      (if a.clean_up then spec_cleanup_block u else []) ++
      spec_apt_update_block ++ spec_git_config_block ++
      spec_vim_core u ++ (if a.testing then spec_vim_removal u else []) ++
      spec_toolchain_block ++
      spec_venv_core u ++ (if a.testing then spec_venv_removal u else []) ++
      spec_interpreter_block vs ++
      (if a.install_guest_edition then spec_guest_block u else []) := by
  obtain ⟨g, t, c⟩ := a
  cases g <;> cases t <;> cases c <;>
    simp [mainRun, USER_HOME, _execute_cmd, _sudo_apt_install, _sudo_bash_cmd,
          _clone_github_repo, _move_file, _delete_directory, _delete_file,
          _run_python, _preprocess_cmd_and_print, Repo.get_clone_cmd, Repo.str,
          python_version_installs_map_fst,
          spec_cleanup_block, spec_apt_update_block, spec_git_config_block,
          spec_vim_core, spec_vim_removal, spec_toolchain_block,
          spec_venv_core, spec_venv_removal, spec_interpreter_block,
          spec_guest_block]

theorem ne_of_append_length_lt (a b lit : String) (h : lit.length < b.length) :
    a ++ b ≠ lit := by
  intro hc
  have hl := congrArg String.length hc
  rw [String.length_append] at hl
  omega

theorem home_append_ne_lit (u s lit : String) (h : lit.length < 6 + s.length) :
    ("/home/" ++ u) ++ s ≠ lit := by
  intro hc
  have hl := congrArg String.length hc
  rw [String.length_append, String.length_append] at hl
  have h6 : ("/home/" : String).length = 6 := by decide
  omega

@[simp] theorem str_append_left_inj (a b c : String) :
    (a ++ b = a ++ c) ↔ b = c := by
  constructor
  · intro hc
    have hd := congrArg String.data hc
    rw [String.data_append, String.data_append] at hd
    have hbc := List.append_cancel_left hd
    cases b
    cases c
    exact congrArg String.mk hbc
  · intro h
    rw [h]

/-! ### C1 -/

/-- C1: for every combination of the three boolean flags, the ordered list
of external commands constructed by `main` is the fixed sequence of the
spec's blocks — optional cleanup, apt update/upgrade pair, git identity,
the vim plugin-manager block, the build-toolchain installs, the virtualenv
bootstrap block, the YAML-driven interpreter installs, and the optional
guest-additions invocation — in exactly this order with no other
commands. -/
theorem C1_command_plan (a : Args) (u : String) (vs : List String) :
    mainPlan a u vs =
      (if a.clean_up then spec_cleanup_block u else []) ++
      spec_apt_update_block ++ spec_git_config_block ++
      spec_vim_block a.testing u ++
      spec_toolchain_block ++
      spec_virtualenv_block a.testing u ++
      spec_interpreter_block vs ++
      (if a.install_guest_edition then spec_guest_block u else []) := by
  rw [mainPlan, mainRun_decomp]
  simp [spec_vim_block, spec_virtualenv_block, List.append_assoc]

/-! ### C2 -/

/-- C2: flipping exactly one of the three flags changes the constructed
plan only by the presence or absence of that flag's associated block(s):
clean-up prepends the artifact-deletion block, install-guest-edition
appends the guest-additions invocation, and testing inserts exactly the
two post-install removal blocks at their fixed positions; every other
constructed command is identical between the two runs. -/
theorem C2_flag_isolation (a : Args) (u : String) (vs : List String) :
    (mainPlan { a with clean_up := true } u vs =
      spec_cleanup_block u ++ mainPlan { a with clean_up := false } u vs) ∧
    (mainPlan { a with install_guest_edition := true } u vs =
      mainPlan { a with install_guest_edition := false } u vs ++
      spec_guest_block u) ∧
    (mainPlan { a with testing := true } u vs =
      ((if a.clean_up then spec_cleanup_block u else []) ++
        spec_apt_update_block ++ spec_git_config_block ++ spec_vim_core u) ++
      spec_vim_removal u ++
      (spec_toolchain_block ++ spec_venv_core u) ++
      spec_venv_removal u ++
      (spec_interpreter_block vs ++
        (if a.install_guest_edition then spec_guest_block u else []))) ∧
    (mainPlan { a with testing := false } u vs =
      ((if a.clean_up then spec_cleanup_block u else []) ++
        spec_apt_update_block ++ spec_git_config_block ++ spec_vim_core u) ++
      (spec_toolchain_block ++ spec_venv_core u) ++
      (spec_interpreter_block vs ++
        (if a.install_guest_edition then spec_guest_block u else []))) := by
  obtain ⟨g, t, c⟩ := a
  refine ⟨?_, ?_, ?_, ?_⟩ <;>
    simp [mainPlan, mainRun_decomp, List.append_assoc]

/-! ### C4 -/

/-- C4: the interpreter-install step constructs exactly one install
command per YAML entry, in file order, each of the form
`sudo apt install python<version> -y`. -/
theorem C4_yaml_driven_installs (env : Env) (vs : List String) :
    (python_version_installs env vs).map Prod.fst =
      vs.map (fun v =>
        Effect.run ["sudo", "apt", "install", "python" ++ v, "-y"] none) ∧
    (python_version_installs env vs).length = vs.length := by
  constructor
  · exact python_version_installs_map_fst env vs
  · have h := congrArg List.length (python_version_installs_map_fst env vs)
    rw [List.length_map, List.length_map] at h
    exact h

/-! ### C5 -/

/-- C5: the command runner `_execute_cmd` and every helper built on it
never inspect the exit status of the processes they launch: for any two
environments assigning arbitrary exit statuses to every invocation, the
constructed commands are identical, and the whole of `main`'s plan equals
the status-independent `mainPlan`. -/
theorem C5_exit_status_ignored (env₁ env₂ : Env) (a : Args) (u : String)
    (vs : List String) (cmd : StrOrTuple) (s : String) (r : Repo)
    (cwd : Option String) :
    ((_execute_cmd env₁ cmd cwd).map Prod.fst =
      (_execute_cmd env₂ cmd cwd).map Prod.fst) ∧
    ((_sudo_apt_install env₁ cmd).map Prod.fst =
      (_sudo_apt_install env₂ cmd).map Prod.fst) ∧
    ((_sudo_bash_cmd env₁ s).map Prod.fst =
      (_sudo_bash_cmd env₂ s).map Prod.fst) ∧
    ((_clone_github_repo env₁ r).map Prod.fst =
      (_clone_github_repo env₂ r).map Prod.fst) ∧
    ((_run_python env₁ cmd cwd).map Prod.fst =
      (_run_python env₂ cmd cwd).map Prod.fst) ∧
    ((mainRun env₁ a u vs).map Prod.fst =
      (mainRun env₂ a u vs).map Prod.fst) ∧
    (mainRun env₁ a u vs).map Prod.fst = mainPlan a u vs := by
  refine ⟨rfl, rfl, rfl, rfl, rfl, ?_, ?_⟩
  · rw [mainRun_decomp, mainRun_decomp]
  · rw [mainPlan, mainRun_decomp, mainRun_decomp]

/-! ### C9 -/

/-- C9: every clone command the script derives targets the SSH URL scheme:
the third element of `get_clone_cmd` is exactly `git@github.com:` followed
by `owner/repo`, for every repository descriptor. -/
theorem C9_ssh_clone_url (r : Repo) :
    r.get_clone_cmd[2]? = some ("git@github.com:" ++ (r.owner ++ "/" ++ r.repo)) ∧
    r.get_clone_cmd[0]? = some "git" ∧ r.get_clone_cmd[1]? = some "clone" := by
  obtain ⟨o, rp, d⟩ := r
  cases d with
  | none => simp [Repo.get_clone_cmd, Repo.str]
  | some s =>
      by_cases hs : optTruthy (some s) = true <;>
        simp [Repo.get_clone_cmd, Repo.str, hs]

/-! ### C10 -/

/-- C10: command preprocessing normalises a bare string to its one-element
tuple: for every string `s`, preprocessing `s` yields the same
(command, banner) pair as preprocessing the tuple `(s,)`, namely
`((s,), s)`. -/
theorem C10_string_tuple_agree (s : String) :
    _preprocess_cmd_and_print (.str s) = _preprocess_cmd_and_print (.tup [s]) ∧
    _preprocess_cmd_and_print (.str s) = ([s], s) := by
  exact ⟨rfl, rfl⟩

/-! ### More string helper lemmas -/

theorem pre_append_ne_lit (pre u s lit : String)
    (h : lit.length < pre.length + s.length) :
    (pre ++ u) ++ s ≠ lit := by
  intro hc
  have hl := congrArg String.length hc
  rw [String.length_append, String.length_append] at hl
  omega

theorem lit_ne_append_left (a b lit : String) (h : lit.length < a.length) :
    a ++ b ≠ lit := by
  intro hc
  have hl := congrArg String.length hc
  rw [String.length_append] at hl
  omega

@[simp] theorem rm_ne_home_append (u s : String) :
    ("rm" = ("/home/" ++ u) ++ s) ↔ False :=
  iff_false_intro (fun hc =>
    pre_append_ne_lit "/home/" u s "rm" (by
      have h1 : ("rm" : String).length = 2 := by decide
      have h2 : ("/home/" : String).length = 6 := by decide
      omega) hc.symm)

@[simp] theorem rm_ne_media_append (u s : String) :
    ("rm" = ("/media/" ++ u) ++ s) ↔ False :=
  iff_false_intro (fun hc =>
    pre_append_ne_lit "/media/" u s "rm" (by
      have h1 : ("rm" : String).length = 2 := by decide
      have h2 : ("/media/" : String).length = 7 := by decide
      omega) hc.symm)

@[simp] theorem rm_ne_python_append (v : String) :
    ("rm" = "python" ++ v) ↔ False :=
  iff_false_intro (fun hc =>
    lit_ne_append_left "python" v "rm" (by decide) hc.symm)

@[simp] theorem vimrc_cl_ne_sudo (u : String) :
    ((("/home/" ++ u) ++ "/.vimrc_cl_install") = "sudo") ↔ False :=
  iff_false_intro (pre_append_ne_lit "/home/" u "/.vimrc_cl_install" "sudo" (by decide))

@[simp] theorem vimrc_cl_ne_rm (u : String) :
    ((("/home/" ++ u) ++ "/.vimrc_cl_install") = "rm") ↔ False :=
  iff_false_intro (pre_append_ne_lit "/home/" u "/.vimrc_cl_install" "rm" (by decide))

@[simp] theorem vimrc_cl_ne_rf (u : String) :
    ((("/home/" ++ u) ++ "/.vimrc_cl_install") = "-rf") ↔ False :=
  iff_false_intro (pre_append_ne_lit "/home/" u "/.vimrc_cl_install" "-rf" (by decide))

@[simp] theorem vimrc_cl_ne_binvirtualenv (u : String) :
    ((("/home/" ++ u) ++ "/.vimrc_cl_install") = "/bin/virtualenv") ↔ False :=
  iff_false_intro
    (pre_append_ne_lit "/home/" u "/.vimrc_cl_install" "/bin/virtualenv" (by decide))

@[simp] theorem scratch_ne_vimrc_cl (u : String) :
    ("scratch" = ("/home/" ++ u) ++ "/.vimrc_cl_install") ↔ False :=
  iff_false_intro (fun hc =>
    pre_append_ne_lit "/home/" u "/.vimrc_cl_install" "scratch" (by decide) hc.symm)

@[simp] theorem tmp_pyz_ne_vimrc_cl (u : String) :
    ("/tmp/virtualenv.pyz" = ("/home/" ++ u) ++ "/.vimrc_cl_install") ↔ False :=
  iff_false_intro (fun hc =>
    pre_append_ne_lit "/home/" u "/.vimrc_cl_install" "/tmp/virtualenv.pyz"
      (by decide) hc.symm)

/-! ### C3 -/

/-- C3 counterexample: for `Repo('a', 'b', '')` the destination is set
(it is a string, not `None`), yet `get_clone_cmd` is the three-element
command rather than the claimed four-element one, and the log line does
not mention the destination — the code branches on Python truthiness of
the destination, not on its presence. -/
theorem C3_counterexample :
    (Repo.mk "a" "b" (some "")).get_clone_cmd ≠
      ["git", "clone", "git@github.com:a/b", ""] ∧
    (Repo.mk "a" "b" (some "")).get_clone_cmd =
      ["git", "clone", "git@github.com:a/b"] ∧
    (Repo.mk "a" "b" (some "")).get_print_line = "cloning repo a/b" := by
  refine ⟨by decide, by decide, by decide⟩

/-- C3 (amended): for every `Repo(owner, repo, destination)`, if the
destination is a non-empty string then `get_clone_cmd` is the four-element
command ending in the destination and the log line mentions it; if the
destination is `None` or the empty string, `get_clone_cmd` is the
three-element command and the log line does not mention a destination. -/
theorem C3_clone_cmd_amended (o r s : String) (h : s ≠ "") :
    (Repo.mk o r (some s)).get_clone_cmd =
      ["git", "clone", "git@github.com:" ++ (o ++ "/" ++ r), s] ∧
    (Repo.mk o r none).get_clone_cmd =
      ["git", "clone", "git@github.com:" ++ (o ++ "/" ++ r)] ∧
    (Repo.mk o r (some "")).get_clone_cmd =
      ["git", "clone", "git@github.com:" ++ (o ++ "/" ++ r)] ∧
    (Repo.mk o r (some s)).get_print_line =
      "cloning repo " ++ (o ++ "/" ++ r) ++ " to " ++ s ∧
    (Repo.mk o r none).get_print_line = "cloning repo " ++ (o ++ "/" ++ r) ∧
    (Repo.mk o r (some "")).get_print_line =
      "cloning repo " ++ (o ++ "/" ++ r) := by
  refine ⟨?_, ?_, ?_, ?_, ?_, ?_⟩ <;>
    simp [Repo.get_clone_cmd, Repo.get_print_line, Repo.str, optTruthy, h]

/-- Witness for the amended C3, at the concrete repo `('a', 'b', 'x')`. -/
theorem C3_clone_cmd_amended_witness :
    ("x" : String) ≠ "" ∧
    ((Repo.mk "a" "b" (some "x")).get_clone_cmd =
      ["git", "clone", "git@github.com:" ++ ("a" ++ "/" ++ "b"), "x"] ∧
    (Repo.mk "a" "b" none).get_clone_cmd =
      ["git", "clone", "git@github.com:" ++ ("a" ++ "/" ++ "b")] ∧
    (Repo.mk "a" "b" (some "")).get_clone_cmd =
      ["git", "clone", "git@github.com:" ++ ("a" ++ "/" ++ "b")] ∧
    (Repo.mk "a" "b" (some "x")).get_print_line =
      "cloning repo " ++ ("a" ++ "/" ++ "b") ++ " to " ++ "x" ∧
    (Repo.mk "a" "b" none).get_print_line =
      "cloning repo " ++ ("a" ++ "/" ++ "b") ∧
    (Repo.mk "a" "b" (some "")).get_print_line =
      "cloning repo " ++ ("a" ++ "/" ++ "b")) :=
  ⟨by decide, C3_clone_cmd_amended "a" "b" "x" (by decide)⟩

/-! ### C7 -/

theorem intercalate_go_eq (sep : String) (bs : List String) :
    ∀ a, String.intercalate.go a sep bs = strJoin sep (a :: bs) := by
  induction bs with
  | nil => intro a; rfl
  | cons b bs ih =>
      intro a
      rw [String.intercalate.go, ih]
      cases bs <;> simp [strJoin, String.append_assoc]

theorem strJoin_eq_intercalate (sep : String) (l : List String) :
    strJoin sep l = String.intercalate sep l := by
  cases l with
  | nil => rfl
  | cons a as => exact (intercalate_go_eq sep as a).symm

/-- C7: for every package argument, `_sudo_apt_install` constructs exactly
`sudo apt install <pkg...> -y` — the argument list spliced between
`install` and a trailing `-y` — and its banner shows the space-joined
package names. -/
theorem C7_apt_install_shape (env : Env) (s : String) (ts : List String) :
    ((_sudo_apt_install env (.str s)).map Prod.fst =
      [.run ["sudo", "apt", "install", s, "-y"] none]) ∧
    ((_sudo_apt_install env (.tup ts)).map Prod.fst =
      [.run ("sudo" :: "apt" :: "install" :: (ts ++ ["-y"])) none]) ∧
    _sudo_apt_install_banner (.str s) = "sudo apt install " ++ s ∧
    _sudo_apt_install_banner (.tup ts) =
      "sudo apt install " ++ String.intercalate " " ts := by
  refine ⟨rfl, rfl, rfl, ?_⟩
  simp [_sudo_apt_install_banner, _preprocess_cmd_and_print,
        strJoin_eq_intercalate]

/-! ### C8 -/

/-- An effect is a `bash` invocation iff it is a subprocess run whose first
argument is `bash`.  The guest-additions installer is the only command the
script launches through `bash`. -/
def head_is_bash : Effect → Bool
  | .run (arg0 :: _) _ => arg0 == "bash"
  | _ => false

@[simp] theorem home_append_beq_bash (u s : String) :
    ((("/home/" ++ u) ++ s) == "bash") = false := by
  rw [beq_eq_false_iff_ne]
  exact pre_append_ne_lit "/home/" u s "bash" (by
    have h1 : ("bash" : String).length = 4 := by decide
    have h2 : ("/home/" : String).length = 6 := by decide
    omega)

theorem head_is_bash_false_aux (t c : Bool) (u : String) (vs : List String) :
    ∀ e ∈ mainPlan ⟨false, t, c⟩ u vs, head_is_bash e = false := by
  have hp : mainPlan ⟨false, t, c⟩ u vs =
      (if c then spec_cleanup_block u else []) ++
      spec_apt_update_block ++ spec_git_config_block ++
      spec_vim_core u ++ (if t then spec_vim_removal u else []) ++
      spec_toolchain_block ++
      spec_venv_core u ++ (if t then spec_venv_removal u else []) ++
      spec_interpreter_block vs ++ [] := by
    rw [mainPlan, mainRun_decomp]
    rfl
  rw [hp]
  cases t <;> cases c <;>
    (simp only [Bool.false_eq_true, if_false, if_true, List.append_nil,
       List.nil_append, spec_cleanup_block, spec_apt_update_block,
       spec_git_config_block, spec_vim_core, spec_vim_removal,
       spec_toolchain_block, spec_venv_core, spec_venv_removal,
       spec_interpreter_block, List.forall_mem_append, List.forall_mem_cons,
       List.forall_mem_map] ;
     simp [head_is_bash])

/-- C8: the guest-additions installer script is a `bash` invocation, no
other constructed command is one, the plan without the flag contains no
such invocation (so the script is invoked iff the flag is set, as the first
conjunct shows the flagged plan is the unflagged plan plus exactly the
guest block), and when the flag is set the invocation is the plan's last
element. -/
theorem C8_guest_edition_last (a : Args) (u : String) (vs : List String) :
    (mainPlan a u vs =
      mainPlan { a with install_guest_edition := false } u vs ++
      (if a.install_guest_edition then spec_guest_block u else [])) ∧
    (∀ e ∈ mainPlan { a with install_guest_edition := false } u vs,
      head_is_bash e = false) ∧
    (mainPlan ⟨true, a.testing, a.clean_up⟩ u vs).getLast? =
      some (.run ["bash", "/media/" ++ u ++ "/VBox_GAs_7.0.12/autorun.sh"] none) ∧
    head_is_bash
      (.run ["bash", "/media/" ++ u ++ "/VBox_GAs_7.0.12/autorun.sh"] none) = true := by
  obtain ⟨g, t, c⟩ := a
  refine ⟨?_, ?_, ?_, ?_⟩
  · cases g <;> simp [mainPlan, mainRun_decomp]
  · exact head_is_bash_false_aux t c u vs
  · rw [mainPlan, mainRun_decomp]
    simp [spec_guest_block, List.getLast?_concat]
  · rfl

/-! ### C6 -/

/-- An effect deletes the path `p` when it is a file removal or recursive
directory removal of `p`, or an `rm` subprocess invocation naming `p`. -/
def deletesPath (p : String) : Effect → Prop
  | .run args _ => "rm" ∈ args ∧ p ∈ args
  | .move _ _ => False
  | .rmtree d => d = p
  | .removeFile f => f = p

instance (p : String) (e : Effect) : Decidable (deletesPath p e) :=
  match e with
  | .run args _ => inferInstanceAs (Decidable ("rm" ∈ args ∧ p ∈ args))
  | .move _ _ => inferInstanceAs (Decidable False)
  | .rmtree d => inferInstanceAs (Decidable (d = p))
  | .removeFile f => inferInstanceAs (Decidable (f = p))

/-- C6 counterexample: in a testing run (`--testing`, no `--clean-up`, user
`user`, empty version list) the script moves `.vimrc_cl_install` into the
home directory, yet no effect of the whole plan deletes
`/home/user/.vimrc_cl_install` — so a testing run leaves residue of what it
installed, contradicting the claim. -/
theorem C6_counterexample :
    Effect.move "scratch/.vimrc_cl_install" "/home/user" ∈
      mainPlan ⟨false, true, false⟩ "user" [] ∧
    ∀ e ∈ mainPlan ⟨false, true, false⟩ "user" [],
      ¬ deletesPath "/home/user/.vimrc_cl_install" e := by
  decide

/-- C6 (amended): when the testing flag is set, the vim setup block is
followed by removal of `~/.vim` and `~/.vimrc` and the virtualenv block by
removal of `~/opt`, `/tmp/virtualenv.pyz` and `/bin/virtualenv`; however
the `.vimrc_cl_install` dotfile the run moves into the home directory is
never deleted afterwards — no effect after the initial clean-up block
deletes it — so a testing run still leaves residue of what it
installed. -/
theorem C6_testing_removals (g c : Bool) (u : String) (vs : List String) :
    (mainPlan ⟨g, true, c⟩ u vs =
      (if c then spec_cleanup_block u else []) ++
      spec_apt_update_block ++ spec_git_config_block ++
      spec_vim_core u ++ spec_vim_removal u ++
      spec_toolchain_block ++
      spec_venv_core u ++ spec_venv_removal u ++
      spec_interpreter_block vs ++
      (if g then spec_guest_block u else [])) ∧
    Effect.move "scratch/.vimrc_cl_install" ("/home/" ++ u) ∈ spec_vim_core u ∧
    (∀ e ∈ spec_apt_update_block ++ spec_git_config_block ++
        spec_vim_core u ++ spec_vim_removal u ++ spec_toolchain_block ++
        spec_venv_core u ++ spec_venv_removal u ++
        spec_interpreter_block vs ++
        (if g then spec_guest_block u else []),
      ¬ deletesPath (("/home/" ++ u) ++ "/.vimrc_cl_install") e) := by
  refine ⟨?_, ?_, ?_⟩
  · rw [mainPlan, mainRun_decomp]
    rfl
  · simp [spec_vim_core]
  · cases g <;>
      (simp only [Bool.false_eq_true, if_false, if_true, List.append_nil,
         List.nil_append, spec_apt_update_block, spec_git_config_block,
         spec_vim_core, spec_vim_removal, spec_toolchain_block,
         spec_venv_core, spec_venv_removal, spec_interpreter_block,
         spec_guest_block, List.forall_mem_append, List.forall_mem_cons,
         List.forall_mem_map] ;
       simp [deletesPath])
